import Mathlib

/-!
Verification of the socialnetwork repository: the load-generation client
(`bot.py`) and the server-side likes/analytics views (`posts/views.py`,
`posts/models.py`), shallowly embedded in Lean.
-/

/-! ## JSON values (results of json.loads) -/

inductive JsonValue where
  | null
  | bool (b : Bool)
  | num (n : Int)
  | str (s : String)
  | arr (xs : List JsonValue)
  | dict (fields : List (String × JsonValue))

/-- Python dict.get on the field list of a JSON object. -/
def dictGet : List (String × JsonValue) → String → Option JsonValue
  | [], _ => none
  | (k, v) :: rest, key => if k = key then some v else dictGet rest key

/-- Embeds `isinstance(data, dict)` together with the check that the code field of the dict equals the token_not_valid string
from `Bot._request_wrapper` (bot.py line 98). -/
def tokenNotValidMarker : JsonValue → Bool
  | JsonValue.dict fields =>
      match dictGet fields ("code") with
      | some (JsonValue.str s) => s == "token_not_valid"
      | _ => false
  | _ => false

/-! ## HTTP responses and the authenticated request executor (bot.py) -/

/-- An HTTP response as observed by the bot: its content-type header,
its raw text, and the JSON value its text parses to (if any). -/
structure Response where
  contentType : Option String
  text : String
  jsonBody : Option JsonValue

/-- Errors the executor can raise. `incorrectResponse` embeds the
generic incorrect-response Exception raised on a non-JSON content type;
`jsonDecodeError` embeds `json.loads` failing on the body text. -/
inductive BotError where
  | incorrectResponse (text : String)
  | jsonDecodeError

/-- Embeds the inner `make_request` of `Bot._request_wrapper`
(bot.py lines 88-95): check the content type first, then parse. -/
def make_request (resp : Response) : Except BotError JsonValue :=
  if resp.contentType ≠ some ("application/json") then
    Except.error (BotError.incorrectResponse resp.text)
  else
    match resp.jsonBody with
    | some v => Except.ok v
    | none => Except.error BotError.jsonDecodeError

/-- Embeds `Bot.UserData` (bot.py lines 21-48). -/
structure UserData where
  username : String
  password : String
  userId : Option Int
  access : String
  refresh : String

/-- Embeds `Bot.refresh_token` (bot.py lines 187-197): the refresh endpoint
returns a new access token which is merged into the user record. -/
def refresh_token (u : UserData) (newAccess : String) : UserData :=
  UserData.mk u.username u.password u.userId newAccess u.refresh

/-- Observable trace of one `_request_wrapper` invocation: its outcome, how
many main-request HTTP calls it issued, how many token refreshes it made,
and the user record it left behind. -/
structure ExecTrace where
  result : Except BotError JsonValue
  httpCalls : Nat
  refreshCalls : Nat
  finalUser : UserData

/-- Embeds `Bot._request_wrapper` (bot.py lines 77-102). `transport n` is the
response the server returns to the n-th main-request call; `newAccess` is the
token the refresh endpoint would hand out. The wrapper makes one request; if
the parsed body is a dict whose code field is the token-invalid marker, it
refreshes the token once and repeats the request, returning whatever the
second request yields (the second body is not checked for the marker). -/
def request_wrapper (user : UserData) (newAccess : String)
    (transport : Nat → Response) : ExecTrace :=
  match make_request (transport 0) with
  | Except.error e => ExecTrace.mk (Except.error e) 1 0 user
  | Except.ok data =>
    if tokenNotValidMarker data then
      let user2 := refresh_token user newAccess
      match make_request (transport 1) with
      | Except.error e => ExecTrace.mk (Except.error e) 2 1 user2
      | Except.ok data2 => ExecTrace.mk (Except.ok data2) 2 1 user2
    else ExecTrace.mk (Except.ok data) 1 0 user

/-- A JSON body carrying the token-invalid marker. -/
def markerBody : JsonValue :=
  JsonValue.dict [("code", JsonValue.str ("token_not_valid"))]

/-- A well-formed JSON response whose body is the token-invalid marker. -/
def markerResponse : Response :=
  Response.mk (some ("application/json")) ("") (some markerBody)

/-- A fixed concrete user for counterexamples and witnesses. -/
def someUser : UserData :=
  UserData.mk ("u1") ("p1") none ("tok") ("ref")

/-- A response whose content type is not JSON. -/
def htmlResponse : Response :=
  Response.mk (some ("text/html")) ("oops") none

/-! ## Calendar dates and the analytics view (posts/views.py) -/

/-- A calendar date, the value `datetime.strptime(value, "%Y-%m-%d").date()`
produces. -/
structure Date where
  year : Nat
  month : Nat
  day : Nat
deriving DecidableEq, Repr

/-- Strict lexicographic order on dates. -/
def dateLt (a b : Date) : Prop :=
  a.year < b.year ∨
    (a.year = b.year ∧ (a.month < b.month ∨ (a.month = b.month ∧ a.day < b.day)))

/-- Non-strict order on dates. -/
def dateLe (a b : Date) : Prop :=
  dateLt a b ∨ a = b

instance (a b : Date) : Decidable (dateLt a b) := by
  unfold dateLt; exact inferInstance

instance (a b : Date) : Decidable (dateLe a b) := by
  unfold dateLe; exact inferInstance

instance : IsTotal Date dateLe :=
  ⟨fun a b => by
    obtain ⟨ay, am, ad⟩ := a
    obtain ⟨b1, b2, b3⟩ := b
    simp only [dateLe, dateLt, Date.mk.injEq]
    omega⟩

instance : IsTrans Date dateLe :=
  ⟨fun a b c hab hbc => by
    obtain ⟨a1, a2, a3⟩ := a
    obtain ⟨b1, b2, b3⟩ := b
    obtain ⟨c1, c2, c3⟩ := c
    simp only [dateLe, dateLt, Date.mk.injEq] at hab hbc ⊢
    omega⟩

/-- A `created_at` timestamp: a DateTimeField value, split into its calendar
date (the `created_at__date` lookup) and the time elapsed within that day. -/
structure DateTime where
  date : Date
  secondsIntoDay : Nat
deriving DecidableEq, Repr

/-- Order on timestamps: earlier date, or same date and earlier time. -/
def dtLe (a b : DateTime) : Prop :=
  dateLt a.date b.date ∨ (a.date = b.date ∧ a.secondsIntoDay ≤ b.secondsIntoDay)

instance (a b : DateTime) : Decidable (dtLe a b) := by
  unfold dtLe; exact inferInstance

/-- Comparing a DateTimeField against a plain date coerces the date to
midnight of that day, as the ORM does in `created_at__gte` and
`created_at__lte` lookups. -/
def midnight (d : Date) : DateTime :=
  DateTime.mk d 0

/-- Embeds the `Like` model (posts/models.py lines 39-55): a user, a post and
a creation timestamp. -/
structure Like where
  user : Nat
  post : Nat
  created_at : DateTime
deriving DecidableEq, Repr

/-- The filter built by `LikesPerDayList.get_queryset` (views.py lines
99-107): `Q(created_at__gte=date_from) & Q(created_at__lte=date_to)`,
each conjunct present only when its bound was parsed. -/
def inBounds (dateFrom dateTo : Option Date) (l : Like) : Bool :=
  (match dateFrom with
   | none => true
   | some df => decide (dtLe (midnight df) l.created_at)) &&
  (match dateTo with
   | none => true
   | some dt => decide (dtLe l.created_at (midnight dt)))

/-- Embeds the grouped-count query of `LikesPerDayList.get_queryset`
(views.py lines 112-117): filter the likes by the date bounds, group them by
`created_at__date`, annotate each group with its row count, and order the
groups by date ascending. -/
def likesPerDay (likes : List Like) (dateFrom dateTo : Option Date) :
    List (Date × Nat) :=
  let filtered := likes.filter (inBounds dateFrom dateTo)
  let days := (filtered.map (fun l => l.created_at.date)).dedup
  let sortedDays := List.insertionSort dateLe days
  sortedDays.map (fun d =>
    (d, (filtered.filter (fun l => decide (l.created_at.date = d))).length))

/-- A list of characters is all decimal digits (and nonempty). -/
def allDigits (cs : List Char) : Bool :=
  decide (cs ≠ []) && cs.all Char.isDigit

/-- Numeric value of a digit string. -/
def digitsToNat (cs : List Char) : Nat :=
  cs.foldl (fun acc c => acc * 10 + (c.toNat - 48)) 0

/-- Splits a character list on the dash character. -/
def splitDash : List Char → List (List Char)
  | [] => [[]]
  | c :: rest =>
    let parts := splitDash rest
    if c = Char.ofNat 45 then [] :: parts
    else match parts with
      | [] => [[c]]
      | p :: ps => (c :: p) :: ps

/-- Gregorian leap year test. -/
def isLeapYear (y : Nat) : Bool :=
  (decide (y % 4 = 0) && decide (y % 100 ≠ 0)) || decide (y % 400 = 0)

/-- Number of days in a month. -/
def daysInMonth (y m : Nat) : Nat :=
  if m = 2 then (if isLeapYear y then 29 else 28)
  else if m = 4 ∨ m = 6 ∨ m = 9 ∨ m = 11 then 30
  else 31

/-- Embeds `datetime.strptime(value, "%Y-%m-%d")` followed by `.date()`:
a four-digit year, a one- or two-digit month in 1..12 and a one- or
two-digit day valid for that month, separated by dashes, with nothing left
over; any other string raises ValueError, embedded as `none`. -/
def parseDate (s : String) : Option Date :=
  match splitDash s.toList with
  | [ys, ms, ds] =>
    if allDigits ys && decide (ys.length = 4) &&
       allDigits ms && decide (ms.length ≤ 2) &&
       allDigits ds && decide (ds.length ≤ 2) then
      let y := digitsToNat ys
      let m := digitsToNat ms
      let d := digitsToNat ds
      if 1 ≤ m ∧ m ≤ 12 ∧ 1 ≤ d ∧ d ≤ daysInMonth y m then
        some (Date.mk y m d)
      else none
    else none
  | _ => none

/-- Embeds the inner `get_date_param` of `LikesPerDayList.get_queryset`
(views.py lines 82-97): a missing or empty parameter is absent, and a value
that fails to parse is silently turned into `None` as well. -/
def get_date_param (value : Option String) : Option Date :=
  match value with
  | none => none
  | some s => if s = "" then none else parseDate s

/-- Errors the server views can produce. `incorrectParameters` embeds
`IncorrectParametersException` (views.py lines 20-26); the other two embed
the generic get-object failures of the destroy path. -/
inductive ApiError where
  | incorrectParameters
  | validationError
  | notFound
  | multipleObjectsReturned
deriving DecidableEq, Repr

/-- HTTP status code attached to each error; `IncorrectParametersException`
declares `status_code = 400`, and a serializer validation failure (such as a
unique-constraint violation) is also a 400. -/
def ApiError.statusCode : ApiError → Nat
  | ApiError.incorrectParameters => 400
  | ApiError.validationError => 400
  | ApiError.notFound => 404
  | ApiError.multipleObjectsReturned => 500

/-- The query string of an analytics request. -/
structure QueryParams where
  date_from : Option String
  date_to : Option String

/-- Embeds `LikesPerDayList.get_queryset` (views.py lines 78-118): parse the
two bounds; each parsed bound contributes one conjunct to `q`, and
`if not len(q)` — that is, when neither bound survived parsing — the view
raises `IncorrectParametersException`; otherwise it returns the grouped
count rows. -/
def get_queryset (params : QueryParams) (likes : List Like) :
    Except ApiError (List (Date × Nat)) :=
  let date_from := get_date_param params.date_from
  let date_to := get_date_param params.date_to
  if date_from = none ∧ date_to = none then
    Except.error ApiError.incorrectParameters
  else
    Except.ok (likesPerDay likes date_from date_to)

/-! ## The stored likes and the like create/destroy view -/

/-- The pair constrained by `unique_together` (user and post) on the
`Like` model (posts/models.py lines 60-61). -/
def likeKey (l : Like) : Nat × Nat :=
  (l.user, l.post)

/-- Whether the store already holds a like by this user on this post. -/
def likeExists (db : List Like) (u p : Nat) : Bool :=
  db.any (fun l => decide (l.user = u) && decide (l.post = p))

/-- The uniqueness invariant enforced by `unique_together`: no two stored
rows share the same (user, post) pair. -/
def likesUnique (db : List Like) : Prop :=
  (db.map likeKey).Nodup

/-- Embeds the create path of `LikeCreateDestroyAPIView` (views.py lines
57-58) with the `unique_together` constraint of the model: inserting a second
like for the same (user, post) pair is rejected and the store is unchanged;
otherwise the new row is appended. -/
def createLike (db : List Like) (u p : Nat) (now : DateTime) :
    List Like × Except ApiError Unit :=
  if likeExists db u p then (db, Except.error ApiError.validationError)
  else (db ++ [Like.mk u p now], Except.ok ())

/-- Embeds the destroy path of `LikeCreateDestroyAPIView` (views.py lines
60-68): the queryset is first restricted to rows whose user is the requester,
then the row is looked up by the post lookup field; a missing row is a 404,
several matching rows would be a MultipleObjectsReturned failure, and the
single match is deleted. -/
def destroyLike (db : List Like) (requester postId : Nat) :
    List Like × Except ApiError Unit :=
  let queryset := db.filter (fun l => decide (l.user = requester))
  match queryset.filter (fun l => decide (l.post = postId)) with
  | [] => (db, Except.error ApiError.notFound)
  | [_] =>
      (db.filter (fun l => !(decide (l.user = requester) && decide (l.post = postId))),
       Except.ok ())
  | _ => (db, Except.error ApiError.multipleObjectsReturned)

/-! ## The workload driver (Bot.start, bot.py lines 265-283) -/

/-- Embeds the inner posting loop of `Bot.start` (lines 272-277) together
with `Bot.make_post` (lines 199-211): the bot creates `n` posts for one user;
the server assigns each new post the next free primary key, and the bot
appends each returned id to its `_post_ids` list. Returns the server's next
free id and the grown id list. -/
def makePostsLoop : Nat → Nat → List Nat → Nat × List Nat
  | 0, nextId, postIds => (nextId, postIds)
  | Nat.succ k, nextId, postIds => makePostsLoop k (nextId + 1) (postIds ++ [nextId])

/-- Embeds the user loop of `Bot.start` (lines 270-277): `postCounts` holds
the `random.randint(1, max_posts_per_user)` draw for each user, one entry per
user; posts are created user by user. -/
def runPostingPhase : List Nat → Nat → List Nat → Nat × List Nat
  | [], nextId, postIds => (nextId, postIds)
  | c :: cs, nextId, postIds =>
    let step := makePostsLoop c nextId postIds
    runPostingPhase cs step.1 step.2

/-- Embeds `random.sample(self._post_ids, max_likes)` (line 281): the library
draws `max_likes` distinct positions of the list and returns the elements at
those positions; `idxs` records the drawn positions. -/
def sampleByIdxs (postIds : List Nat) (idxs : List Nat) : List Nat :=
  idxs.map (fun i => postIds.getD i 0)

/-- The `max_likes = min(self.max_likes_per_user, len(self._post_ids))` cap
of `Bot.start` (line 279). -/
def maxLikesCap (maxLikesPerUser : Nat) (postIds : List Nat) : Nat :=
  min maxLikesPerUser postIds.length

/-- The like requests one user issues in the liking loop (lines 280-283):
one `add_like` call per sampled post id, in sample order. -/
def likeRequestsForUser (postIds : List Nat) (idxs : List Nat) : List Nat :=
  sampleByIdxs postIds idxs

/-- C1: the executor issues at most two HTTP calls per logical request; a
second call happens exactly when the first call returned a JSON dict carrying
the token-invalid marker, and it is preceded by exactly one token refresh
(refreshes = calls - 1). -/
theorem request_wrapper_at_most_two_calls (user : UserData) (newAccess : String)
    (transport : Nat → Response) :
    (request_wrapper user newAccess transport).httpCalls ≤ 2 ∧
    (request_wrapper user newAccess transport).refreshCalls ≤ 1 ∧
    ((request_wrapper user newAccess transport).httpCalls = 2 ↔
      ∃ d, make_request (transport 0) = Except.ok d ∧ tokenNotValidMarker d = true) ∧
    (request_wrapper user newAccess transport).refreshCalls =
      (request_wrapper user newAccess transport).httpCalls - 1 := by
  unfold request_wrapper
  cases h : make_request (transport 0) with
  | error e => simp
  | ok d =>
      by_cases hm : tokenNotValidMarker d
      · cases h2 : make_request (transport 1) with
        | error e2 => simp [hm, h2]
        | ok d2 => simp [hm, h2]
      · simp [hm, h]

/-- C2 counterexample: when both the original and the retried call return the
token-invalid marker body, `_request_wrapper` does not fail — it returns the
marker body to the caller as a successful result (while indeed making no
third call and no second refresh). -/
theorem token_invalid_twice_returns_body :
    (request_wrapper someUser ("tok2") (fun _ => markerResponse)).result =
      Except.ok markerBody ∧
    (request_wrapper someUser ("tok2") (fun _ => markerResponse)).httpCalls = 2 ∧
    (request_wrapper someUser ("tok2") (fun _ => markerResponse)).refreshCalls = 1 :=
  ⟨rfl, rfl, rfl⟩

/-- C2 amended: if both the original call and the single retried call return a
JSON body carrying the token-invalid marker, the executor returns the second
body to the caller (no exception is raised), and no third HTTP call and no
second refresh are performed. -/
theorem token_invalid_twice_no_third_call (user : UserData) (newAccess : String)
    (transport : Nat → Response) (d1 d2 : JsonValue)
    (h1 : make_request (transport 0) = Except.ok d1)
    (hm1 : tokenNotValidMarker d1 = true)
    (h2 : make_request (transport 1) = Except.ok d2)
    (_hm2 : tokenNotValidMarker d2 = true) :
    (request_wrapper user newAccess transport).result = Except.ok d2 ∧
    (request_wrapper user newAccess transport).httpCalls = 2 ∧
    (request_wrapper user newAccess transport).refreshCalls = 1 ∧
    (request_wrapper user newAccess transport).finalUser =
      refresh_token user newAccess := by
  unfold request_wrapper
  rw [h1]
  simp [hm1, h2]

/-- Witness instantiating the amended C2 theorem at a concrete transport that
returns the marker body on both calls. -/
theorem token_invalid_twice_no_third_call_witness :
    (request_wrapper someUser ("tok2") (fun _ => markerResponse)).result =
      Except.ok markerBody ∧
    (request_wrapper someUser ("tok2") (fun _ => markerResponse)).httpCalls = 2 ∧
    (request_wrapper someUser ("tok2") (fun _ => markerResponse)).refreshCalls = 1 ∧
    (request_wrapper someUser ("tok2") (fun _ => markerResponse)).finalUser =
      refresh_token someUser ("tok2") :=
  token_invalid_twice_no_third_call someUser ("tok2") (fun _ => markerResponse)
    markerBody markerBody rfl rfl rfl rfl

/-- C3: if the response to the original call has a content type other than
application/json, the executor fails at once with the incorrect-response
error built from the raw text (so before any body parsing), makes no token
refresh and no retry, whatever the credential's token state. -/
theorem non_json_response_fails_immediately (user : UserData) (newAccess : String)
    (transport : Nat → Response)
    (h : (transport 0).contentType ≠ some ("application/json")) :
    (request_wrapper user newAccess transport).result =
      Except.error (BotError.incorrectResponse (transport 0).text) ∧
    (request_wrapper user newAccess transport).httpCalls = 1 ∧
    (request_wrapper user newAccess transport).refreshCalls = 0 := by
  unfold request_wrapper
  have hmk : make_request (transport 0) =
      Except.error (BotError.incorrectResponse (transport 0).text) := by
    unfold make_request
    rw [if_pos h]
  rw [hmk]
  exact ⟨rfl, rfl, rfl⟩

/-- Witness instantiating the C3 theorem on a text/html response. -/
theorem non_json_response_fails_immediately_witness :
    (request_wrapper someUser ("tok2") (fun _ => htmlResponse)).result =
      Except.error (BotError.incorrectResponse ("oops")) ∧
    (request_wrapper someUser ("tok2") (fun _ => htmlResponse)).httpCalls = 1 ∧
    (request_wrapper someUser ("tok2") (fun _ => htmlResponse)).refreshCalls = 0 :=
  non_json_response_fails_immediately someUser ("tok2") (fun _ => htmlResponse)
    (by simp [htmlResponse])

/-- C4 counterexample: an analytics query in which date_from is supplied but
not a date, and date_to is absent, has a supplied bound yet is rejected with
the 400 IncorrectParametersException. -/
theorem supplied_malformed_bound_still_rejected :
    (QueryParams.mk (some ("bogus")) none).date_from ≠ none ∧
    get_queryset (QueryParams.mk (some ("bogus")) none) [] =
      Except.error ApiError.incorrectParameters ∧
    ApiError.statusCode ApiError.incorrectParameters = 400 :=
  ⟨by decide, rfl, rfl⟩

/-- C4 amended: the analytics query fails with the 400 parameter error if and
only if neither supplied bound parses as a date (absent, empty and malformed
bounds all count as missing), and it succeeds whenever at least one bound
parses. -/
theorem analytics_rejects_iff_no_parsed_bound (params : QueryParams)
    (likes : List Like) :
    (get_queryset params likes = Except.error ApiError.incorrectParameters ↔
      ((get_date_param params.date_from).isSome = false ∧
       (get_date_param params.date_to).isSome = false)) ∧
    ApiError.statusCode ApiError.incorrectParameters = 400 ∧
    ((∃ rows, get_queryset params likes = Except.ok rows) ↔
      ((get_date_param params.date_from).isSome = true ∨
       (get_date_param params.date_to).isSome = true)) := by
  cases hf : get_date_param params.date_from <;>
    cases ht : get_date_param params.date_to <;>
      simp [get_queryset, hf, ht, ApiError.statusCode]

/-- C10: a supplied analytics bound that does not parse as a YYYY-MM-DD date
is silently treated as absent: with one valid and one malformed bound the
query behaves exactly as if the malformed bound had not been sent, and with
every supplied bound malformed it is rejected with the 400 parameter error.
-/
theorem malformed_bound_treated_as_absent (likes : List Like) (f t : String) :
    (get_date_param (some t) = none →
      get_queryset (QueryParams.mk (some f) (some t)) likes =
        get_queryset (QueryParams.mk (some f) none) likes) ∧
    (get_date_param (some f) = none →
      get_queryset (QueryParams.mk (some f) (some t)) likes =
        get_queryset (QueryParams.mk none (some t)) likes) ∧
    (get_date_param (some f) = none → get_date_param (some t) = none →
      get_queryset (QueryParams.mk (some f) (some t)) likes =
        Except.error ApiError.incorrectParameters) := by
  have hnone : get_date_param none = none := rfl
  refine ⟨fun h => ?_, fun h => ?_, fun h1 h2 => ?_⟩
  · simp [get_queryset, h, hnone]
  · simp [get_queryset, h, hnone]
  · simp [get_queryset, h1, h2]

/-- Witness for C10 at concrete inputs: 2022-13-01 does not parse (month 13),
so it is dropped next to the valid bound 2022-05-10, and two malformed bounds
are rejected. -/
theorem malformed_bound_treated_as_absent_witness :
    get_date_param (some ("2022-13-01")) = none ∧
    get_queryset (QueryParams.mk (some ("2022-05-10")) (some ("2022-13-01"))) [] =
      get_queryset (QueryParams.mk (some ("2022-05-10")) none) [] ∧
    get_queryset (QueryParams.mk (some ("oops")) (some ("2022-13-01"))) [] =
      Except.error ApiError.incorrectParameters :=
  ⟨by decide,
   (malformed_bound_treated_as_absent [] ("2022-05-10") ("2022-13-01")).1 (by decide),
   (malformed_bound_treated_as_absent [] ("oops") ("2022-13-01")).2.2
     (by decide) (by decide)⟩

/-- Helper: if no stored like matches (u, p), then (u, p) is not among the
stored like keys. -/
theorem likeKey_not_mem_of_not_exists (db : List Like) (u p : Nat)
    (h : likeExists db u p = false) : (u, p) ∉ db.map likeKey := by
  intro hmem
  rcases List.mem_map.mp hmem with ⟨l, hl, hk⟩
  have h1 : l.user = u ∧ l.post = p := by
    have := Prod.mk.injEq l.user l.post u p ▸ hk
    simpa [likeKey, Prod.ext_iff] using hk
  rcases h1 with ⟨hu, hp⟩
  have : likeExists db u p = true := by
    unfold likeExists
    rw [List.any_eq_true]
    exact ⟨l, hl, by simp [hu, hp]⟩
  rw [h] at this
  exact Bool.false_ne_true this

/-- Helper: removing rows (a filter) preserves the like-uniqueness invariant.
-/
theorem likesUnique_filter (db : List Like) (pred : Like → Bool)
    (h : likesUnique db) : likesUnique (db.filter pred) := by
  unfold likesUnique at h ⊢
  exact List.Nodup.sublist (List.Sublist.map likeKey (List.filter_sublist db)) h

/-- C8: the store keeps at most one like per (user, post) pair: creating a
duplicate like is rejected with a 400 validation error and leaves the stored
likes unchanged, and the uniqueness invariant is preserved by the create
operation and by the destroy operation. -/
theorem like_uniqueness_invariant (db : List Like) (u p : Nat) (now : DateTime)
    (requester postId : Nat) (h : likesUnique db) :
    likesUnique (createLike db u p now).1 ∧
    (likeExists db u p = true →
      createLike db u p now = (db, Except.error ApiError.validationError) ∧
      ApiError.statusCode ApiError.validationError = 400) ∧
    likesUnique (destroyLike db requester postId).1 := by
  refine ⟨?_, ?_, ?_⟩
  · unfold createLike
    cases he : likeExists db u p with
    | true => simpa [he] using h
    | false =>
        simp only [he, Bool.false_eq_true, if_false]
        unfold likesUnique
        rw [List.map_append]
        apply List.Nodup.append h
        · simp [likeKey]
        · intro a ha hb
          have : a = (u, p) := by simpa [likeKey] using hb
          subst this
          exact likeKey_not_mem_of_not_exists db u p he ha
  · intro he
    unfold createLike
    simp [he, ApiError.statusCode]
  · simp only [destroyLike]
    rcases hq : List.filter (fun l => decide (l.post = postId))
        (List.filter (fun l => decide (l.user = requester)) db)
      with _ | ⟨a, _ | ⟨b, rest⟩⟩ <;> rw [hq]
    · exact h
    · exact likesUnique_filter db _ h
    · exact h

/-- Witness for C8 on a concrete store: one stored like (user 1, post 5);
re-creating it is rejected and the store is unchanged, and both operations
preserve uniqueness. -/
theorem like_uniqueness_invariant_witness :
    likesUnique [Like.mk 1 5 (DateTime.mk (Date.mk 2021 1 1) 0)] ∧
    likesUnique (createLike [Like.mk 1 5 (DateTime.mk (Date.mk 2021 1 1) 0)] 1 5
        (DateTime.mk (Date.mk 2021 1 2) 0)).1 ∧
    (likeExists [Like.mk 1 5 (DateTime.mk (Date.mk 2021 1 1) 0)] 1 5 = true →
      createLike [Like.mk 1 5 (DateTime.mk (Date.mk 2021 1 1) 0)] 1 5
          (DateTime.mk (Date.mk 2021 1 2) 0) =
        ([Like.mk 1 5 (DateTime.mk (Date.mk 2021 1 1) 0)],
          Except.error ApiError.validationError) ∧
      ApiError.statusCode ApiError.validationError = 400) ∧
    likesUnique (destroyLike [Like.mk 1 5 (DateTime.mk (Date.mk 2021 1 1) 0)] 1 5).1 := by
  have h : likesUnique [Like.mk 1 5 (DateTime.mk (Date.mk 2021 1 1) 0)] := by
    unfold likesUnique
    decide
  exact ⟨h,
    (like_uniqueness_invariant _ 1 5 (DateTime.mk (Date.mk 2021 1 2) 0) 1 5 h).1,
    (like_uniqueness_invariant _ 1 5 (DateTime.mk (Date.mk 2021 1 2) 0) 1 5 h).2.1,
    (like_uniqueness_invariant _ 1 5 (DateTime.mk (Date.mk 2021 1 2) 0) 1 5 h).2.2⟩

/-- Helper for C9: deleting the requester's like on one post commutes away
under a filter for a different user's likes. -/
theorem filter_erase_other_user (db : List Like) (requester postId v : Nat)
    (h : v ≠ requester) :
    (db.filter (fun l =>
        !(decide (l.user = requester) && decide (l.post = postId)))).filter
        (fun l => decide (l.user = v)) =
      db.filter (fun l => decide (l.user = v)) := by
  rw [List.filter_filter]
  apply List.filter_congr
  intro a _
  by_cases hv : a.user = v
  · have hr : ¬(a.user = requester) := by
      rw [hv]; exact h
    simp [hv, hr, h]
  · simp [hv]

/-- C9: a DELETE on the like endpoint removes only a like owned by the
requesting user: for any other user, that user's stored likes — its likes on
the same post included — are exactly what they were before the operation. -/
theorem destroy_only_touches_requester (db : List Like) (requester postId v : Nat)
    (h : v ≠ requester) :
    (destroyLike db requester postId).1.filter (fun l => decide (l.user = v)) =
      db.filter (fun l => decide (l.user = v)) := by
  simp only [destroyLike]
  rcases hq : List.filter (fun l => decide (l.post = postId))
      (List.filter (fun l => decide (l.user = requester)) db)
    with _ | ⟨a, _ | ⟨b, rest⟩⟩ <;> simp only [hq]
  exact filter_erase_other_user db requester postId v h

/-- Witness for C9: users 1 and 2 both like post 5; user 1 deletes its like
and user 2's likes are untouched. -/
theorem destroy_only_touches_requester_witness :
    (2 : Nat) ≠ 1 ∧
    (destroyLike [Like.mk 1 5 (DateTime.mk (Date.mk 2021 1 1) 0),
                  Like.mk 2 5 (DateTime.mk (Date.mk 2021 1 1) 0)] 1 5).1.filter
        (fun l => decide (l.user = 2)) =
      [Like.mk 1 5 (DateTime.mk (Date.mk 2021 1 1) 0),
       Like.mk 2 5 (DateTime.mk (Date.mk 2021 1 1) 0)].filter
        (fun l => decide (l.user = 2)) :=
  ⟨by decide,
   destroy_only_touches_requester
     [Like.mk 1 5 (DateTime.mk (Date.mk 2021 1 1) 0),
      Like.mk 2 5 (DateTime.mk (Date.mk 2021 1 1) 0)] 1 5 2 (by decide)⟩

/-- Helper: one user's posting loop appends the consecutive server-assigned
ids starting at the current next free id. -/
theorem makePostsLoop_eq (c : Nat) : ∀ (nextId : Nat) (acc : List Nat),
    makePostsLoop c nextId acc = (nextId + c, acc ++ List.range' nextId c) := by
  induction c with
  | zero => intro nextId acc; simp [makePostsLoop]
  | succ k ih =>
      intro nextId acc
      rw [makePostsLoop, ih, List.range'_succ, Prod.mk.injEq]
      refine ⟨by omega, ?_⟩
      simp

/-- Helper: the whole posting phase appends one consecutive id block per
user, one id per created post. -/
theorem runPostingPhase_eq (counts : List Nat) : ∀ (nextId : Nat) (acc : List Nat),
    runPostingPhase counts nextId acc =
      (nextId + counts.sum, acc ++ List.range' nextId counts.sum) := by
  induction counts with
  | nil => intro nextId acc; simp [runPostingPhase]
  | cons c cs ih =>
      intro nextId acc
      rw [runPostingPhase, makePostsLoop_eq, ih, Prod.mk.injEq]
      have harr := List.range'_append nextId c cs.sum 1
      rw [one_mul] at harr
      constructor
      · rw [List.sum_cons]
        omega
      · rw [List.append_assoc, harr, List.sum_cons, Nat.add_comm c cs.sum]

/-- C7: in a successful workload run the posting phase draws each user's post
count from 1..max_posts_per_user, ends with a post-id list whose length is
the sum of the per-user counts, appends each server-assigned id exactly once
(the list is exactly the consecutive block of new ids), and every id in the
list is unique. -/
theorem posting_phase_ids (counts : List Nat) (startId maxPostsPerUser : Nat)
    (_hcounts : ∀ c ∈ counts, 1 ≤ c ∧ c ≤ maxPostsPerUser) :
    (runPostingPhase counts startId []).2.length = counts.sum ∧
    (runPostingPhase counts startId []).2 = List.range' startId counts.sum ∧
    (runPostingPhase counts startId []).2.Nodup := by
  rw [runPostingPhase_eq]
  refine ⟨by simp, by simp, ?_⟩
  simp only [List.nil_append]
  exact List.nodup_range' startId counts.sum

/-- Witness for C7: two users with post counts 1 and 2 under
max_posts_per_user = 2, server ids starting at 4: the bot records exactly
the three fresh ids 4, 5, 6. -/
theorem posting_phase_ids_witness :
    (∀ c ∈ [1, 2], 1 ≤ c ∧ c ≤ 2) ∧
    (runPostingPhase [1, 2] 4 []).2.length = List.sum [1, 2] ∧
    (runPostingPhase [1, 2] 4 []).2 = List.range' 4 (List.sum [1, 2]) ∧
    (runPostingPhase [1, 2] 4 []).2.Nodup :=
  ⟨by decide, posting_phase_ids [1, 2] 4 2 (by decide)⟩

/-- C6: in the liking phase each user issues exactly
min(max_likes_per_user, total_posts_created) like requests, and — the post-id
list holding no duplicates — the sampled ids are pairwise distinct, so no
post is liked twice by the same user within the run. -/
theorem liking_phase_per_user (postIds idxs : List Nat) (maxLikesPerUser : Nat)
    (hpost : postIds.Nodup) (hnodup : idxs.Nodup)
    (hbound : ∀ i ∈ idxs, i < postIds.length)
    (hlen : idxs.length = maxLikesCap maxLikesPerUser postIds) :
    (likeRequestsForUser postIds idxs).length = min maxLikesPerUser postIds.length ∧
    (likeRequestsForUser postIds idxs).Nodup := by
  constructor
  · simpa [likeRequestsForUser, sampleByIdxs, maxLikesCap] using hlen
  · unfold likeRequestsForUser sampleByIdxs
    refine List.Nodup.map_on ?_ hnodup
    intro i hi j hj heq
    have hi2 := hbound i hi
    have hj2 := hbound j hj
    rw [List.getD_eq_getElem?_getD, List.getD_eq_getElem?_getD,
       List.getElem?_eq_getElem hi2, List.getElem?_eq_getElem hj2] at heq
    simp only [Option.getD_some] at heq
    exact (List.Nodup.getElem_inj_iff hpost).mp heq

/-- Witness for C6: three distinct post ids, max_likes_per_user = 2, sampled
positions 2 and 0: the user issues two like requests on distinct posts. -/
theorem liking_phase_per_user_witness :
    ([5, 7, 9] : List Nat).Nodup ∧
    ([2, 0] : List Nat).Nodup ∧
    (∀ i ∈ ([2, 0] : List Nat), i < ([5, 7, 9] : List Nat).length) ∧
    ([2, 0] : List Nat).length = maxLikesCap 2 [5, 7, 9] ∧
    (likeRequestsForUser [5, 7, 9] [2, 0]).length = min 2 ([5, 7, 9] : List Nat).length ∧
    (likeRequestsForUser [5, 7, 9] [2, 0]).Nodup :=
  ⟨by decide, by decide, by decide, by decide,
   liking_phase_per_user [5, 7, 9] [2, 0] 2 (by decide) (by decide)
     (by decide) (by decide)⟩

/-- Helper: two pairwise properties of a list combine pointwise. -/
theorem pairwise_conj {α : Type} {R S : α → α → Prop} :
    ∀ {l : List α}, l.Pairwise R → l.Pairwise S →
      l.Pairwise (fun a b => R a b ∧ S a b)
  | [], _, _ => List.Pairwise.nil
  | _ :: _, List.Pairwise.cons h1 t1, List.Pairwise.cons h2 t2 =>
      List.Pairwise.cons (fun b hb => ⟨h1 b hb, h2 b hb⟩) (pairwise_conj t1 t2)

/-- Helper: properties of the grouped, counted and sorted day rows built
from any filtered list of likes: rows strictly ascending by date, each count
the number of filtered likes on that row's day, and the row days exactly the
days on which a filtered like exists. -/
theorem grouped_rows_props (filtered : List Like) :
    ((List.insertionSort dateLe
        ((filtered.map (fun l => l.created_at.date)).dedup)).map
      (fun d => (d, (filtered.filter
          (fun l => decide (l.created_at.date = d))).length))).Pairwise
        (fun a b => dateLt a.1 b.1) ∧
    (∀ p ∈ (List.insertionSort dateLe
        ((filtered.map (fun l => l.created_at.date)).dedup)).map
      (fun d => (d, (filtered.filter
          (fun l => decide (l.created_at.date = d))).length)),
      p.2 = (filtered.filter
          (fun l => decide (l.created_at.date = p.1))).length ∧ 0 < p.2) ∧
    (∀ d : Date,
      d ∈ ((List.insertionSort dateLe
          ((filtered.map (fun l => l.created_at.date)).dedup)).map
        (fun d => (d, (filtered.filter
            (fun l => decide (l.created_at.date = d))).length))).map Prod.fst ↔
        ∃ l ∈ filtered, l.created_at.date = d) := by
  have hperm := List.perm_insertionSort dateLe
    ((filtered.map (fun l => l.created_at.date)).dedup)
  have hsorted := List.sorted_insertionSort dateLe
    ((filtered.map (fun l => l.created_at.date)).dedup)
  have hnodup : (List.insertionSort dateLe
      ((filtered.map (fun l => l.created_at.date)).dedup)).Nodup :=
    (hperm.nodup_iff).mpr (List.nodup_dedup _)
  have hlt : (List.insertionSort dateLe
      ((filtered.map (fun l => l.created_at.date)).dedup)).Pairwise dateLt :=
    (pairwise_conj hsorted hnodup).imp (fun h => h.1.resolve_right h.2)
  refine ⟨List.pairwise_map.mpr hlt, ?_, ?_⟩
  · intro p hp
    rcases List.mem_map.mp hp with ⟨d, hd, rfl⟩
    refine ⟨rfl, ?_⟩
    have hd2 : d ∈ (filtered.map (fun l => l.created_at.date)).dedup :=
      hperm.mem_iff.mp hd
    have hd3 : d ∈ filtered.map (fun l => l.created_at.date) :=
      List.mem_dedup.mp hd2
    rcases List.mem_map.mp hd3 with ⟨l, hl, hld⟩
    have hmem : l ∈ filtered.filter (fun l => decide (l.created_at.date = d)) :=
      List.mem_filter.mpr ⟨hl, by simp [hld]⟩
    exact List.length_pos.mpr (List.ne_nil_of_mem hmem)
  · intro d
    rw [List.map_map]
    have hid : (Prod.fst ∘ fun d => (d, (filtered.filter
        (fun l => decide (l.created_at.date = d))).length)) = fun d => d := rfl
    rw [hid, List.map_id', hperm.mem_iff, List.mem_dedup]
    simp [List.mem_map, eq_comm]

/-- C5: the analytics rows are grouped by calendar day — each row's count is
the number of likes within the requested bounds created on that row's day,
and a day appears exactly when some like in bounds was created on it — the
rows are sorted strictly ascending by date, and no two rows share a date. -/
theorem likes_per_day_grouped_sorted (likes : List Like)
    (dateFrom dateTo : Option Date) :
    (likesPerDay likes dateFrom dateTo).Pairwise (fun a b => dateLt a.1 b.1) ∧
    (∀ p ∈ likesPerDay likes dateFrom dateTo,
      p.2 = ((likes.filter (inBounds dateFrom dateTo)).filter
          (fun l => decide (l.created_at.date = p.1))).length ∧ 0 < p.2) ∧
    (∀ d : Date,
      d ∈ (likesPerDay likes dateFrom dateTo).map Prod.fst ↔
        ∃ l ∈ likes.filter (inBounds dateFrom dateTo),
          l.created_at.date = d) :=
  grouped_rows_props (likes.filter (inBounds dateFrom dateTo))
